import Mathlib

/-!
Verification of the profitability engine of `src/app.py` (mining mode
cut-off calculator).  The script's arithmetic is embedded over the exact
rationals `ℚ`: Python floats become rationals, and Python's division,
which raises `ZeroDivisionError` on a zero divisor (including the float
`0.0`), is modelled by `pydiv`, which returns `none` in exactly that
case.  A `none` result therefore represents a raised exception, not a
value the script produces.
-/

namespace MiningCutoff

/-- Python division `a / b`: `none` models the `ZeroDivisionError` that
Python raises when `b == 0`; otherwise the exact quotient. -/
def pydiv (a b : ℚ) : Option ℚ :=
  if b = 0 then none else some (a / b)

/-- `src/app.py` line 72:
`th_per_nok = network_hashrate * 600 / (block_reward * btc_price)`. -/
def th_per_nok (network_hashrate block_reward btc_price : ℚ) : Option ℚ :=
  pydiv (network_hashrate * 600) (block_reward * btc_price)

/-- `src/app.py` lines 75-76:
`def th_per_kwh(hashrate, power_w): return hashrate * 3600 / (power_w/1000)`.
Also used for the marginal efficiencies (lines 90-91), where the
arguments are the hashrate and power deltas of adjacent modes. -/
def th_per_kwh (hashrate power_w : ℚ) : Option ℚ :=
  pydiv (hashrate * 3600) (power_w / 1000)

/-- `src/app.py` lines 78-79:
`def j_per_th(hashrate, power_w): return (power_w / hashrate)`. -/
def j_per_th (hashrate power_w : ℚ) : Option ℚ :=
  pydiv power_w hashrate

/-- `src/app.py` lines 94-96: the cut-off prices in øre/kWh, e.g.
`eco_cutoff = 100 * eco_eff / th_per_nok`.  The efficiency argument is
either a single mode's `th_per_kwh` (break-even) or a marginal
`th_per_kwh` of deltas (switch threshold). -/
def cutoff_price (eff tpn : ℚ) : Option ℚ :=
  pydiv (100 * eff) tpn

/-- `src/app.py` lines 158-159:
`def profit_per_hour(th_per_nok, power_w, elec_price_nok, hashrate):
   return (hashrate * 3600 / th_per_nok) - (elec_price_nok * power_w * 0.001)`. -/
def profit_per_hour (tpn power_w elec_price_nok hashrate : ℚ) : Option ℚ :=
  (pydiv (hashrate * 3600) tpn).map
    (fun r => r - elec_price_nok * power_w * (1 / 1000))

/-- `src/app.py` lines 249-255: at zero electricity price the revenue is
`rev = profit_per_hour(th_per_nok, power, 0, hash)` and the payback time
is `PB = purchase_price / (rev * 24 * 365)` with no guard on the sign of
`rev`. -/
def payback_years (purchase_price rev : ℚ) : Option ℚ :=
  pydiv purchase_price (rev * 24 * 365)

/-- `src/app.py` lines 232-237: the displayed efficiency break-even
point.  For a positive price the script computes
`3600000 / (elec_price_nok * th_per_nok)`; for a non-positive price it
sets the value to the explicit `None` sentinel (rendered as `∞ J/TH`),
which we also model as `none`. -/
def cut_off_efficiency (elec_price_nok tpn : ℚ) : Option ℚ :=
  if 0 < elec_price_nok then pydiv 3600000 (elec_price_nok * tpn) else none

/-- The closed form of the hourly profit used to compare profits of two
modes; `profit_per_hour` returns `some` of this value whenever the
revenue rate is non-zero (`profit_per_hour_eq`). -/
def profit_val (tpn power_w elec_price_nok hashrate : ℚ) : ℚ :=
  hashrate * 3600 / tpn - elec_price_nok * power_w * (1 / 1000)

lemma pydiv_eq_some {a b : ℚ} (h : b ≠ 0) : pydiv a b = some (a / b) := by
  simp [pydiv, h]

lemma pydiv_some {a b c : ℚ} (h : pydiv a b = some c) : b ≠ 0 ∧ a / b = c := by
  by_cases hb : b = 0
  · simp [pydiv, hb] at h
  · simp [pydiv, hb] at h
    exact ⟨hb, h⟩

lemma profit_per_hour_eq {tpn : ℚ} (h : tpn ≠ 0) (pw ep hr : ℚ) :
    profit_per_hour tpn pw ep hr = some (profit_val tpn pw ep hr) := by
  simp [profit_per_hour, pydiv_eq_some h, profit_val]

lemma th_per_nok_pos {nh br bp tpn : ℚ} (hnh : 0 < nh) (hbr : 0 < br)
    (hbp : 0 < bp) (h : th_per_nok nh br bp = some tpn) : 0 < tpn := by
  obtain ⟨hne, hv⟩ := pydiv_some h
  subst hv
  positivity

lemma th_per_kwh_eq {hr pw : ℚ} (h : pw ≠ 0) :
    th_per_kwh hr pw = some (hr * 3600000 / pw) := by
  have h1000 : pw / 1000 ≠ 0 := div_ne_zero h (by norm_num)
  rw [th_per_kwh, pydiv_eq_some h1000, div_div_eq_mul_div]
  norm_num
  ring_nf

/-- **C3.** For every mode with positive power and hashrate,
`th_per_kwh` and `j_per_th` both return strictly positive (finite)
values, and the two values are exact reciprocals up to the unit constant:
their product is `3600000` (joules per kWh). -/
theorem th_per_kwh_j_per_th_reciprocal (pw hr e j : ℚ)
    (hpw : 0 < pw) (hhr : 0 < hr)
    (he : th_per_kwh hr pw = some e) (hj : j_per_th hr pw = some j) :
    0 < e ∧ 0 < j ∧ e * j = 3600000 := by
  rw [th_per_kwh_eq hpw.ne'] at he
  obtain ⟨hne, hv⟩ := pydiv_some hj
  have he' : e = hr * 3600000 / pw := (Option.some.inj he).symm
  subst hv
  refine ⟨?_, by positivity, ?_⟩
  · rw [he']
    positivity
  · rw [he']
    field_simp

/-- Witness for C3 at the Eco defaults (830 W, 53 TH/s). -/
theorem th_per_kwh_j_per_th_reciprocal_witness :
    (0:ℚ) < 53 * 3600000 / 830 ∧ (0:ℚ) < 830 / 53 ∧
      (53 * 3600000 / 830 : ℚ) * (830 / 53) = 3600000 :=
  th_per_kwh_j_per_th_reciprocal 830 53 (53 * 3600000 / 830) (830 / 53)
    (by norm_num) (by norm_num)
    (by rw [th_per_kwh_eq (show (830:ℚ) ≠ 0 by norm_num)])
    (by rw [j_per_th, pydiv_eq_some (show (53:ℚ) ≠ 0 by norm_num)])

/-- **C2.** For every mode with positive power and hashrate and every
positive market parameters, the break-even price
`100 * th_per_kwh(hashrate, power) / th_per_nok` (line 94) is a single
positive (finite, since it is a rational) number, and `profit_per_hour`
evaluated at exactly that price converted from øre to NOK by dividing by
100 (line 154) is zero for that mode. -/
theorem breakeven_price_zero_profit (pw hr nh br bp tpn eff cp : ℚ)
    (hpw : 0 < pw) (hhr : 0 < hr) (hnh : 0 < nh) (hbr : 0 < br) (hbp : 0 < bp)
    (htpn : th_per_nok nh br bp = some tpn)
    (heff : th_per_kwh hr pw = some eff)
    (hcp : cutoff_price eff tpn = some cp) :
    0 < cp ∧ profit_per_hour tpn pw (cp / 100) hr = some 0 := by
  have htpnpos := th_per_nok_pos hnh hbr hbp htpn
  rw [th_per_kwh_eq hpw.ne'] at heff
  have heff' : eff = hr * 3600000 / pw := (Option.some.inj heff).symm
  obtain ⟨-, hcv⟩ := pydiv_some hcp
  have hcp' : cp = 100 * eff / tpn := hcv.symm
  constructor
  · rw [hcp', heff']
    positivity
  · rw [profit_per_hour_eq htpnpos.ne']
    congr 1
    rw [profit_val, hcp', heff']
    field_simp
    ring

/-- Witness for C2: mode (1000 W, 1 TH/s), market parameters
(1, 600, 1) giving `th_per_nok = 1`, break-even `cp = 360000` øre. -/
theorem breakeven_price_zero_profit_witness :
    (0:ℚ) < 360000 ∧ profit_per_hour 1 1000 (360000 / 100) 1 = some 0 :=
  breakeven_price_zero_profit 1000 1 1 600 1 1 3600 360000
    (by norm_num) (by norm_num) (by norm_num) (by norm_num) (by norm_num)
    (by norm_num [th_per_nok, pydiv])
    (by norm_num [th_per_kwh, pydiv])
    (by norm_num [cutoff_price, pydiv])

/-- **C4.** For a fixed mode with positive power and hashrate and fixed
positive market parameters, `profit_per_hour` is monotonically
non-increasing in the electricity price: `p1 ≤ p2` implies the profit at
`p1` is at least the profit at `p2`. -/
theorem profit_per_hour_antitone_in_price (nh br bp tpn pw hr p1 p2 q1 q2 : ℚ)
    (hpw : 0 < pw) (hhr : 0 < hr)
    (hnh : 0 < nh) (hbr : 0 < br) (hbp : 0 < bp)
    (htpn : th_per_nok nh br bp = some tpn)
    (hple : p1 ≤ p2)
    (h1 : profit_per_hour tpn pw p1 hr = some q1)
    (h2 : profit_per_hour tpn pw p2 hr = some q2) :
    q2 ≤ q1 := by
  have htpnpos := th_per_nok_pos hnh hbr hbp htpn
  rw [profit_per_hour_eq htpnpos.ne'] at h1 h2
  have e1 := Option.some.inj h1
  have e2 := Option.some.inj h2
  rw [← e1, ← e2, profit_val, profit_val]
  have hmul : p1 * pw ≤ p2 * pw := mul_le_mul_of_nonneg_right hple hpw.le
  linarith

/-- Witness for C4: mode (1000 W, 1 TH/s), `th_per_nok = 1`, prices 1
and 2 NOK/kWh, profits 3599 and 3598 NOK/h. -/
theorem profit_per_hour_antitone_in_price_witness : (3598:ℚ) ≤ 3599 :=
  profit_per_hour_antitone_in_price 1 600 1 1 1000 1 1 2 3599 3598
    (by norm_num) (by norm_num) (by norm_num) (by norm_num) (by norm_num)
    (by norm_num [th_per_nok, pydiv]) (by norm_num)
    (by norm_num [profit_per_hour, pydiv])
    (by norm_num [profit_per_hour, pydiv])

/-- **C5.** For every mode and positive market parameters,
`profit_per_hour` at electricity price 0 equals the pure revenue
`hashrate * 3600 / th_per_nok`, and the value is independent of the
power: two modes with the same hashrate and different powers have the
same profit at price 0 (cf. lines 249-251). -/
theorem profit_at_zero_price_pure_revenue (nh br bp tpn pw1 pw2 hr : ℚ)
    (hnh : 0 < nh) (hbr : 0 < br) (hbp : 0 < bp)
    (htpn : th_per_nok nh br bp = some tpn) :
    profit_per_hour tpn pw1 0 hr = some (hr * 3600 / tpn) ∧
    profit_per_hour tpn pw1 0 hr = profit_per_hour tpn pw2 0 hr := by
  have htpnpos := th_per_nok_pos hnh hbr hbp htpn
  constructor <;> simp [profit_per_hour_eq htpnpos.ne', profit_val]

/-- Witness for C5: hashrate 53 TH/s with powers 830 W and 1675 W,
`th_per_nok = 1`. -/
theorem profit_at_zero_price_pure_revenue_witness :
    profit_per_hour 1 830 0 53 = some (53 * 3600 / 1) ∧
    profit_per_hour 1 830 0 53 = profit_per_hour 1 1675 0 53 :=
  profit_at_zero_price_pure_revenue 1 600 1 1 830 1675 53
    (by norm_num) (by norm_num) (by norm_num)
    (by norm_num [th_per_nok, pydiv])

/-- **C1.** For an adjacent mode pair with `hi.power > lo.power` and
`hi.hashrate > lo.hashrate` and positive market parameters, the switch
threshold `thr = 100 * marginal_efficiency / th_per_nok` (øre/kWh,
lines 90 and 95) is exactly the price where the two modes' profits
cross: at the NOK price `thr / 100` the profits are equal, at any NOK
price `p1 < thr / 100` the higher mode's profit strictly exceeds the
lower mode's, and at any `p2 > thr / 100` the ordering is reversed. -/
theorem switch_threshold_profit_crossing
    (lo_p lo_h hi_p hi_h nh br bp tpn eff thr p1 p2 : ℚ)
    (hpow : lo_p < hi_p) (hhash : lo_h < hi_h)
    (hnh : 0 < nh) (hbr : 0 < br) (hbp : 0 < bp)
    (htpn : th_per_nok nh br bp = some tpn)
    (heff : th_per_kwh (hi_h - lo_h) (hi_p - lo_p) = some eff)
    (hthr : cutoff_price eff tpn = some thr)
    (hp1 : p1 < thr / 100) (hp2 : thr / 100 < p2) :
    profit_per_hour tpn hi_p (thr / 100) hi_h
        = profit_per_hour tpn lo_p (thr / 100) lo_h ∧
    profit_per_hour tpn lo_p p1 lo_h = some (profit_val tpn lo_p p1 lo_h) ∧
    profit_per_hour tpn hi_p p1 hi_h = some (profit_val tpn hi_p p1 hi_h) ∧
    profit_val tpn lo_p p1 lo_h < profit_val tpn hi_p p1 hi_h ∧
    profit_per_hour tpn lo_p p2 lo_h = some (profit_val tpn lo_p p2 lo_h) ∧
    profit_per_hour tpn hi_p p2 hi_h = some (profit_val tpn hi_p p2 hi_h) ∧
    profit_val tpn hi_p p2 hi_h < profit_val tpn lo_p p2 lo_h := by
  have htpnpos := th_per_nok_pos hnh hbr hbp htpn
  have hdp : 0 < hi_p - lo_p := sub_pos.mpr hpow
  rw [th_per_kwh_eq hdp.ne'] at heff
  have heff' : eff = (hi_h - lo_h) * 3600000 / (hi_p - lo_p) :=
    (Option.some.inj heff).symm
  obtain ⟨-, hthrv⟩ := pydiv_some hthr
  have hthr' : thr = 100 * eff / tpn := hthrv.symm
  have key : thr / 100 * ((hi_p - lo_p) * (1 / 1000))
      = (hi_h - lo_h) * 3600 / tpn := by
    rw [hthr', heff']
    field_simp
    ring
  refine ⟨?_, profit_per_hour_eq htpnpos.ne' _ _ _,
    profit_per_hour_eq htpnpos.ne' _ _ _, ?_,
    profit_per_hour_eq htpnpos.ne' _ _ _,
    profit_per_hour_eq htpnpos.ne' _ _ _, ?_⟩
  · rw [profit_per_hour_eq htpnpos.ne', profit_per_hour_eq htpnpos.ne']
    congr 1
    rw [profit_val, profit_val]
    linear_combination -key
  · rw [profit_val, profit_val]
    have diff_eq : (hi_h * 3600 / tpn - p1 * hi_p * (1 / 1000))
        - (lo_h * 3600 / tpn - p1 * lo_p * (1 / 1000))
        = (thr / 100 - p1) * ((hi_p - lo_p) * (1 / 1000)) := by
      linear_combination -key
    have hpos : 0 < (thr / 100 - p1) * ((hi_p - lo_p) * (1 / 1000)) :=
      mul_pos (sub_pos.mpr hp1) (by positivity)
    linarith [diff_eq, hpos]
  · rw [profit_val, profit_val]
    have diff_eq : (lo_h * 3600 / tpn - p2 * lo_p * (1 / 1000))
        - (hi_h * 3600 / tpn - p2 * hi_p * (1 / 1000))
        = (p2 - thr / 100) * ((hi_p - lo_p) * (1 / 1000)) := by
      linear_combination key
    have hpos : 0 < (p2 - thr / 100) * ((hi_p - lo_p) * (1 / 1000)) :=
      mul_pos (sub_pos.mpr hp2) (by positivity)
    linarith [diff_eq, hpos]

/-- Witness for C1: lo = (1000 W, 1 TH/s), hi = (2000 W, 2 TH/s),
market (1, 600, 1) so `th_per_nok = 1`, marginal efficiency 3600,
threshold 360000 øre, probe prices 0 and 7200 NOK/kWh. -/
theorem switch_threshold_profit_crossing_witness :
    profit_per_hour 1 2000 (360000 / 100) 2
        = profit_per_hour 1 1000 (360000 / 100) 1 ∧
    profit_per_hour 1 1000 0 1 = some (profit_val 1 1000 0 1) ∧
    profit_per_hour 1 2000 0 2 = some (profit_val 1 2000 0 2) ∧
    profit_val 1 1000 0 1 < profit_val 1 2000 0 2 ∧
    profit_per_hour 1 1000 7200 1 = some (profit_val 1 1000 7200 1) ∧
    profit_per_hour 1 2000 7200 2 = some (profit_val 1 2000 7200 2) ∧
    profit_val 1 2000 7200 2 < profit_val 1 1000 7200 1 :=
  switch_threshold_profit_crossing 1000 1 2000 2 1 600 1 1 3600 360000 0 7200
    (by norm_num) (by norm_num) (by norm_num) (by norm_num) (by norm_num)
    (by norm_num [th_per_nok, pydiv])
    (by norm_num [th_per_kwh, pydiv])
    (by norm_num [cutoff_price, pydiv])
    (by norm_num) (by norm_num)

/-- **C10.** For a strictly positive electricity price and positive
market parameters, the displayed cut-off efficiency
`3600000 / (elec_price_nok * th_per_nok)` (line 233) is exactly the
`j_per_th` value at which a mode breaks even: a mode with positive power
and hashrate has zero profit at that price iff its `j_per_th` equals the
cut-off efficiency, positive profit iff `j_per_th` is strictly below it,
and negative profit iff strictly above it. -/
theorem cut_off_efficiency_breakeven_characterization
    (p nh br bp tpn pw hr ce j q : ℚ)
    (hp : 0 < p) (hnh : 0 < nh) (hbr : 0 < br) (hbp : 0 < bp)
    (hpw : 0 < pw) (hhr : 0 < hr)
    (htpn : th_per_nok nh br bp = some tpn)
    (hce : cut_off_efficiency p tpn = some ce)
    (hj : j_per_th hr pw = some j)
    (hq : profit_per_hour tpn pw p hr = some q) :
    (q = 0 ↔ j = ce) ∧ (0 < q ↔ j < ce) ∧ (q < 0 ↔ ce < j) := by
  have htpnpos := th_per_nok_pos hnh hbr hbp htpn
  rw [cut_off_efficiency, if_pos hp,
    pydiv_eq_some (mul_pos hp htpnpos).ne'] at hce
  have hce' : ce = 3600000 / (p * tpn) := (Option.some.inj hce).symm
  obtain ⟨-, hjv⟩ := pydiv_some hj
  have hj' : j = pw / hr := hjv.symm
  rw [profit_per_hour_eq htpnpos.ne'] at hq
  have hq' : q = hr * 3600 / tpn - p * pw * (1 / 1000) :=
    (Option.some.inj hq).symm
  have hq3 : q = (3600000 * hr - p * pw * tpn) / (1000 * tpn) := by
    rw [hq']
    field_simp
    ring
  have hjce : j - ce = (p * pw * tpn - 3600000 * hr) / (hr * (p * tpn)) := by
    rw [hj', hce']
    field_simp
    ring
  have hD1 : (0:ℚ) < 1000 * tpn := by positivity
  have hD2 : (0:ℚ) < hr * (p * tpn) := by positivity
  refine ⟨?_, ?_, ?_⟩
  · constructor
    · intro h0
      have hS : 3600000 * hr - p * pw * tpn = 0 := by
        have := hq3.symm.trans h0
        rcases div_eq_zero_iff.mp this with h | h
        · exact h
        · exact absurd h hD1.ne'
      have : j - ce = 0 := by
        rw [hjce, show p * pw * tpn - 3600000 * hr = 0 by linarith]
        simp
      linarith
    · intro h0
      have : j - ce = 0 := by rw [h0]; ring
      rw [hjce] at this
      have hS := (div_eq_zero_iff.mp this).resolve_right hD2.ne'
      rw [hq3, show 3600000 * hr - p * pw * tpn = 0 by linarith]
      simp
  · rw [hq3, lt_div_iff hD1, zero_mul,
      show (j < ce) ↔ (j - ce < 0) by constructor <;> intro <;> linarith,
      hjce, div_lt_iff hD2, zero_mul]
    constructor <;> intro <;> linarith
  · rw [hq3, div_lt_iff hD1, zero_mul,
      show (ce < j) ↔ (0 < j - ce) by constructor <;> intro <;> linarith,
      hjce, lt_div_iff hD2, zero_mul]
    constructor <;> intro <;> linarith

/-- Witness for C10: price 2 NOK/kWh, `th_per_nok = 1`, mode
(1000 W, 1 TH/s): profit `q = 3598`, `j_per_th = 1000`, cut-off
efficiency `1800000`. -/
theorem cut_off_efficiency_breakeven_characterization_witness :
    ((3598:ℚ) = 0 ↔ (1000:ℚ) = 1800000) ∧
    ((0:ℚ) < 3598 ↔ (1000:ℚ) < 1800000) ∧
    ((3598:ℚ) < 0 ↔ (1800000:ℚ) < 1000) :=
  cut_off_efficiency_breakeven_characterization 2 1 600 1 1 1000 1 1800000 1000 3598
    (by norm_num) (by norm_num) (by norm_num) (by norm_num)
    (by norm_num) (by norm_num)
    (by norm_num [th_per_nok, pydiv])
    (by norm_num [cut_off_efficiency, pydiv])
    (by norm_num [j_per_th, pydiv])
    (by norm_num [profit_per_hour, pydiv])

/-- **C6 (counterexample).** At the concrete equal-power pair
(Standard power 1380 = hi power 1380) the marginal efficiency
computation `th_per_kwh(delta_hash, delta_power)` produces no value at
all: the division by the zero power delta raises `ZeroDivisionError`
(modelled as `none`), so it does not return an undefined/infinite
sentinel value. -/
theorem equal_power_marginal_counterexample :
    th_per_kwh 82 (1380 - 1380) = none := by
  norm_num [th_per_kwh, pydiv]

/-- **C6 (amended).** For every mode pair with `hi.power == lo.power`,
the marginal efficiency computation divides by the zero power delta and
raises `ZeroDivisionError` (yields no value, modelled as `none`),
regardless of the hashrate values; it does not return a numeric or
infinite sentinel. -/
theorem equal_power_marginal_raises (dh lo_p hi_p : ℚ) (h : hi_p = lo_p) :
    th_per_kwh dh (hi_p - lo_p) = none := by
  subst h
  simp [th_per_kwh, pydiv]

/-- Witness for C6 (amended) at `hi_p = lo_p = 5`, `dh = 3`. -/
theorem equal_power_marginal_raises_witness :
    th_per_kwh 3 ((5:ℚ) - 5) = none :=
  equal_power_marginal_raises 3 5 5 rfl

/-- **C7 (counterexample).** A dominated pair (lo = 830 W / 53 TH/s,
hi = 1380 W / 40 TH/s, so `hi.hashrate < lo.hashrate` while
`hi.power > lo.power`) produces a plain numeric marginal efficiency
`-936000/11` and, with a positive revenue rate `th_per_nok = 2`, a plain
negative numeric switch threshold `-46800000/11` øre/kWh, with no
"dominated" signal of any kind. -/
theorem dominated_pair_numeric_counterexample :
    th_per_kwh (40 - 53) (1380 - 830) = some (-936000 / 11) ∧
    cutoff_price (-936000 / 11) 2 = some (-46800000 / 11) ∧
    (-46800000 / 11 : ℚ) < 0 := by
  norm_num [th_per_kwh, cutoff_price, pydiv]

/-- **C7 (amended).** For every pair with `hi.hashrate ≤ lo.hashrate`
and `hi.power > lo.power` and any positive revenue rate, the code
signals nothing: it returns the switch threshold as a plain
(misleading) non-positive numeric price `100 * eff / tpn`. -/
theorem dominated_pair_plain_numeric_cutoff
    (lo_p lo_h hi_p hi_h tpn eff : ℚ)
    (hpow : lo_p < hi_p) (hhash : hi_h ≤ lo_h) (htpn : 0 < tpn)
    (heff : th_per_kwh (hi_h - lo_h) (hi_p - lo_p) = some eff) :
    cutoff_price eff tpn = some (100 * eff / tpn) ∧ 100 * eff / tpn ≤ 0 := by
  have hdp : 0 < hi_p - lo_p := sub_pos.mpr hpow
  rw [th_per_kwh_eq hdp.ne'] at heff
  have heff' : eff = (hi_h - lo_h) * 3600000 / (hi_p - lo_p) :=
    (Option.some.inj heff).symm
  have heffle : eff ≤ 0 := by
    rw [heff']
    apply div_nonpos_of_nonpos_of_nonneg _ hdp.le
    nlinarith [sub_nonpos.mpr hhash]
  refine ⟨pydiv_eq_some htpn.ne', ?_⟩
  apply div_nonpos_of_nonpos_of_nonneg _ htpn.le
  linarith

/-- Witness for C7 (amended) at the counterexample's inputs. -/
theorem dominated_pair_plain_numeric_cutoff_witness :
    cutoff_price (-936000 / 11) 2 = some (100 * (-936000 / 11) / 2) ∧
    (100 * (-936000 / 11 : ℚ) / 2) ≤ 0 :=
  dominated_pair_plain_numeric_cutoff 830 53 1380 40 2 (-936000 / 11)
    (by norm_num) (by norm_num) (by norm_num)
    (by norm_num [th_per_kwh, pydiv])

/-- **C8 (counterexample).** With revenue rate `th_per_nok = 3600`,
power 830 W and hashrate `-1` TH/s (the hashrate inputs have no lower
bound), the zero-price profit is the non-positive value `-1` NOK/h, and
the payback computation `purchase_price / (rev * 24 * 365)` (line 253)
returns the plain negative number `-955/438` years rather than an
undefined/infinite sentinel. -/
theorem negative_profit_payback_counterexample :
    profit_per_hour 3600 830 0 (-1) = some (-1) ∧
    payback_years 19100 (-1) = some (-955 / 438) ∧
    (-955 / 438 : ℚ) < 0 := by
  norm_num [profit_per_hour, payback_years, pydiv]

/-- **C8 (amended).** The payback computation has no guard: for
positive profit it equals `purchase_price / (profit * 24 * 365)` and is
strictly decreasing in the profit, but for negative profit it returns a
plain negative number and for zero profit the division raises
`ZeroDivisionError` (modelled as `none`); no undefined/infinite sentinel
is ever produced. -/
theorem payback_formula_monotone_unguarded
    (purchase r1 r2 r3 q1 q2 : ℚ) (hpur : 0 < purchase)
    (hr1 : 0 < r1) (hr12 : r1 < r2) (hr3 : r3 < 0)
    (hq1 : payback_years purchase r1 = some q1)
    (hq2 : payback_years purchase r2 = some q2) :
    q1 = purchase / (r1 * 24 * 365) ∧ q2 < q1 ∧
    payback_years purchase r3 = some (purchase / (r3 * 24 * 365)) ∧
    purchase / (r3 * 24 * 365) < 0 ∧
    payback_years purchase 0 = none := by
  have hd1 : (0:ℚ) < r1 * 24 * 365 := by positivity
  have hd2 : (0:ℚ) < r2 * 24 * 365 := by nlinarith [hr1.trans hr12]
  have hd3 : r3 * 24 * 365 < 0 := by nlinarith
  rw [payback_years, pydiv_eq_some hd1.ne'] at hq1
  rw [payback_years, pydiv_eq_some hd2.ne'] at hq2
  have e1 : q1 = purchase / (r1 * 24 * 365) := (Option.some.inj hq1).symm
  have e2 : q2 = purchase / (r2 * 24 * 365) := (Option.some.inj hq2).symm
  refine ⟨e1, ?_, ?_, ?_, ?_⟩
  · rw [e1, e2]
    apply div_lt_div_of_pos_left hpur hd1
    nlinarith
  · rw [payback_years]
    exact pydiv_eq_some hd3.ne
  · exact div_neg_of_pos_of_neg hpur hd3
  · simp [payback_years, pydiv]

/-- Witness for C8 (amended): purchase 19100, profits 1, 2 and -1. -/
theorem payback_formula_monotone_unguarded_witness :
    (19100 / 8760 : ℚ) = 19100 / (1 * 24 * 365) ∧
    (19100 / 17520 : ℚ) < 19100 / 8760 ∧
    payback_years 19100 (-1) = some (19100 / ((-1) * 24 * 365)) ∧
    (19100 : ℚ) / ((-1) * 24 * 365) < 0 ∧
    payback_years 19100 0 = none :=
  payback_formula_monotone_unguarded 19100 1 2 (-1) (19100 / 8760) (19100 / 17520)
    (by norm_num) (by norm_num) (by norm_num) (by norm_num)
    (by norm_num [payback_years, pydiv])
    (by norm_num [payback_years, pydiv])

/-- **C9 (counterexample).** At hashrate 0 and power 830 W,
`j_per_th` divides by the zero hashrate and raises `ZeroDivisionError`
(modelled as `none`): it produces no undefined/infinite value, contrary
to the claim that it does not raise. -/
theorem zero_hashrate_j_per_th_counterexample :
    j_per_th 0 830 = none := by
  simp [j_per_th, pydiv]

/-- **C9 (amended).** For every non-zero power, a mode with
hashrate 0 makes `j_per_th` raise `ZeroDivisionError` (yield no value,
modelled as `none`), while `th_per_kwh` returns the plain number 0; no
undefined/infinite sentinel is produced by either. -/
theorem zero_hashrate_mode_efficiency (pw : ℚ) (hpw : pw ≠ 0) :
    j_per_th 0 pw = none ∧ th_per_kwh 0 pw = some 0 := by
  constructor
  · simp [j_per_th, pydiv]
  · rw [th_per_kwh_eq hpw]
    norm_num

/-- Witness for C9 (amended) at power 1380 W. -/
theorem zero_hashrate_mode_efficiency_witness :
    j_per_th 0 1380 = none ∧ th_per_kwh 0 1380 = some 0 :=
  zero_hashrate_mode_efficiency 1380 (by norm_num)

end MiningCutoff
